import Mathlib

/-!
Verification of the validator-economics simulation embedded in the chart
component `src/docs/components/ValidatorEconomics.tsx` of the OpenAudio/docs
repository.

The component computes, from a scenario (compute provider, blob-storage
provider, AUDIO token price, total stake, user stake), an ordered list of 12
weekly projections: weekly earnings, weekly infrastructure cost, weekly net
and cumulative net, all in USD.  The numeric arithmetic is embedded over an
arbitrary field `K` (so the definitions stay computable functions); the
trigonometric functions `Math.sin` / `Math.cos` used by the source are passed
as parameters `sinR` / `cosR`.  The theorems instantiate `K` with `ℝ` and the
trigonometric parameters with `Real.sin` / `Real.cos`.
-/

/-- The compute-provider selector (`type Provider` in the source). -/
inductive Provider
  | aws_ec2
  | gcp_compute
deriving DecidableEq, Repr

/-- The blob-storage selector (`type BlobProvider` in the source). -/
inductive BlobProvider
  | s3
  | gcs
deriving DecidableEq, Repr

/-- `interface ComputeCost { base: number }`. -/
structure ComputeCost (K : Type) where
  base : K

/-- `interface BlobCost { storage_per_gb: number; egress_per_gb: number }`. -/
structure BlobCost (K : Type) where
  storage_per_gb : K
  egress_per_gb : K

variable {K : Type} [Field K]

/-- The fixed compute-cost table `COMPUTE_COSTS`. -/
def COMPUTE_COSTS : Provider → ComputeCost K
  | .aws_ec2 => ⟨80⟩
  | .gcp_compute => ⟨70⟩

/-- The fixed blob-cost table `BLOB_COSTS`. -/
def BLOB_COSTS : BlobProvider → BlobCost K
  | .s3 => ⟨0.023, 0.09⟩
  | .gcs => ⟨0.020, 0.12⟩

/-- Constant `storageGB = 200` of the component. -/
def storageGB : K := 200

/-- Constant `egressGB = 400` of the component. -/
def egressGB : K := 400

/-- Constant `annualRewardRate = 0.07` of the component. -/
def annualRewardRate : K := 0.07

/-- Constant `weeks = 12` of the component. -/
def weeks : ℕ := 12

/-- One element of the array produced by the `data` memo of the component. -/
@[ext]
structure WeekProjection (K : Type) where
  week : ℕ
  weeklyEarningsUSD : K
  weeklyInfraCostUSD : K
  netUSD : K
  cumulativeNetUSD : K

/-- The scenario parameters the `data` memo reads (its dependency list:
`provider`, `blob`, `audioPrice`, `totalStake`, `userStake`). -/
structure ScenarioInput (K : Type) where
  provider : Provider
  blob : BlobProvider
  audioPrice : K
  totalStake : K
  userStake : K

/-- The body of the `Array.from` callback of the `data` memo: given the
0-based index `i` and the running totals `cumulativeEarnings` and
`cumulativeCosts`, produce the projection of week `i + 1` together with the
updated totals. -/
def weekRow (sinR cosR : K → K) (inp : ScenarioInput K) (i : ℕ)
    (cumulativeEarnings cumulativeCosts : K) : WeekProjection K × K × K :=
  let blobCost := BLOB_COSTS inp.blob
  let computeCost := COMPUTE_COSTS inp.provider
  let weeklyRewardRate : K := annualRewardRate / 52
  let monthlyToWeekly : K := 1 / 4.345
  let week := i + 1
  let priceDrift := inp.audioPrice * (1 + 0.1 * sinR ((week : K) / 3))
  let rewardVariance := weeklyRewardRate * (1 + 0.05 * cosR ((week : K) / 2))
  let weeklyEarningsUSD := inp.userStake * rewardVariance * priceDrift
  let cumulativeEarnings2 := cumulativeEarnings + weeklyEarningsUSD
  let costGrowth : K := 1 + (week : K) * 0.015
  let weeklyInfraCostUSD :=
    (computeCost.base * monthlyToWeekly +
      blobCost.storage_per_gb * storageGB +
      blobCost.egress_per_gb * egressGB) * costGrowth
  let cumulativeCosts2 := cumulativeCosts + weeklyInfraCostUSD
  let netUSD := weeklyEarningsUSD - weeklyInfraCostUSD
  let cumulativeNetUSD := cumulativeEarnings2 - cumulativeCosts2
  (⟨week, weeklyEarningsUSD, weeklyInfraCostUSD, netUSD, cumulativeNetUSD⟩,
    cumulativeEarnings2, cumulativeCosts2)

/-- The loop of the `data` memo: `buildRows sinR cosR inp n i cE cC` produces
the projections for the `n` weeks starting at 0-based index `i`, threading the
running totals exactly as the mutable variables `cumulativeEarnings` and
`cumulativeCosts` of the source. -/
def buildRows (sinR cosR : K → K) (inp : ScenarioInput K) :
    ℕ → ℕ → K → K → List (WeekProjection K)
  | 0, _, _, _ => []
  | n + 1, i, cE, cC =>
    let r := weekRow sinR cosR inp i cE cC
    r.1 :: buildRows sinR cosR inp n (i + 1) r.2.1 r.2.2

/-- The `data` memo of the component: the full 12-week projection list. -/
def data (sinR cosR : K → K) (inp : ScenarioInput K) :
    List (WeekProjection K) :=
  buildRows sinR cosR inp weeks 0 0 0

/-- The component's initial state: AWS EC2, S3, price 0.27, total stake
280 000 000, user stake 2 000 000. -/
def defaultInput : ScenarioInput K :=
  ⟨.aws_ec2, .s3, 0.27, 280000000, 2000000⟩

/-- Closed form of the weekly earnings of week `w`. -/
def earnAt (sinR cosR : K → K) (inp : ScenarioInput K) (w : ℕ) : K :=
  inp.userStake * (annualRewardRate / 52 * (1 + 0.05 * cosR ((w : K) / 2))) *
    (inp.audioPrice * (1 + 0.1 * sinR ((w : K) / 3)))

/-- Closed form of the weekly infrastructure cost of week `w`. -/
def costAt (inp : ScenarioInput K) (w : ℕ) : K :=
  ((COMPUTE_COSTS inp.provider).base * (1 / 4.345) +
      (BLOB_COSTS inp.blob).storage_per_gb * storageGB +
      (BLOB_COSTS inp.blob).egress_per_gb * egressGB) * (1 + (w : K) * 0.015)

/-- Closed form of the list element produced at offset `j` when the loop
starts at 0-based index `i` with running totals `cE`, `cC`. -/
def rowAt (sinR cosR : K → K) (inp : ScenarioInput K) (cE cC : K) (i j : ℕ) :
    WeekProjection K :=
  { week := i + j + 1
    weeklyEarningsUSD := earnAt sinR cosR inp (i + j + 1)
    weeklyInfraCostUSD := costAt inp (i + j + 1)
    netUSD := earnAt sinR cosR inp (i + j + 1) - costAt inp (i + j + 1)
    cumulativeNetUSD :=
      (cE + ∑ k in Finset.range (j + 1), earnAt sinR cosR inp (i + k + 1)) -
        (cC + ∑ k in Finset.range (j + 1), costAt inp (i + k + 1)) }

/-- A scenario with a zero user stake (used to exercise the zero-stake
behaviour of the simulation). -/
def zeroStakeInput : ScenarioInput K :=
  ⟨.aws_ec2, .s3, 0.27, 280000000, 0⟩

theorem storageGB_eq : (storageGB : K) = 200 := rfl

theorem egressGB_eq : (egressGB : K) = 400 := rfl

theorem annualRewardRate_eq : (annualRewardRate : K) = 0.07 := rfl

theorem COMPUTE_COSTS_aws_base :
    (COMPUTE_COSTS Provider.aws_ec2 : ComputeCost K).base = 80 := rfl

theorem COMPUTE_COSTS_gcp_base :
    (COMPUTE_COSTS Provider.gcp_compute : ComputeCost K).base = 70 := rfl

theorem BLOB_COSTS_s3_storage :
    (BLOB_COSTS BlobProvider.s3 : BlobCost K).storage_per_gb = 0.023 := rfl

theorem BLOB_COSTS_s3_egress :
    (BLOB_COSTS BlobProvider.s3 : BlobCost K).egress_per_gb = 0.09 := rfl

theorem BLOB_COSTS_gcs_storage :
    (BLOB_COSTS BlobProvider.gcs : BlobCost K).storage_per_gb = 0.020 := rfl

theorem BLOB_COSTS_gcs_egress :
    (BLOB_COSTS BlobProvider.gcs : BlobCost K).egress_per_gb = 0.12 := rfl

theorem weekRow_eq (sinR cosR : K → K) (inp : ScenarioInput K) (i : ℕ)
    (cE cC : K) :
    weekRow sinR cosR inp i cE cC =
      (⟨i + 1, earnAt sinR cosR inp (i + 1), costAt inp (i + 1),
          earnAt sinR cosR inp (i + 1) - costAt inp (i + 1),
          (cE + earnAt sinR cosR inp (i + 1)) - (cC + costAt inp (i + 1))⟩,
        cE + earnAt sinR cosR inp (i + 1), cC + costAt inp (i + 1)) := rfl

theorem rowAt_succ (sinR cosR : K → K) (inp : ScenarioInput K) (cE cC : K)
    (i j : ℕ) :
    rowAt sinR cosR inp cE cC i (j + 1) =
      rowAt sinR cosR inp (cE + earnAt sinR cosR inp (i + 1))
        (cC + costAt inp (i + 1)) (i + 1) j := by
  have hw : i + (j + 1) + 1 = i + 1 + j + 1 := by omega
  have hsumE :
      ∑ k in Finset.range (j + 1 + 1), earnAt sinR cosR inp (i + k + 1) =
        (∑ k in Finset.range (j + 1), earnAt sinR cosR inp (i + 1 + k + 1)) +
          earnAt sinR cosR inp (i + 1) := by
    rw [Finset.sum_range_succ']
    congr 1
    refine Finset.sum_congr rfl fun k _ => ?_
    rw [show i + (k + 1) + 1 = i + 1 + k + 1 from by omega]
  have hsumC :
      ∑ k in Finset.range (j + 1 + 1), costAt inp (i + k + 1) =
        (∑ k in Finset.range (j + 1), costAt inp (i + 1 + k + 1)) +
          costAt inp (i + 1) := by
    rw [Finset.sum_range_succ']
    congr 1
    refine Finset.sum_congr rfl fun k _ => ?_
    rw [show i + (k + 1) + 1 = i + 1 + k + 1 from by omega]
  ext
  · show i + (j + 1) + 1 = i + 1 + j + 1
    omega
  · show earnAt sinR cosR inp (i + (j + 1) + 1) =
      earnAt sinR cosR inp (i + 1 + j + 1)
    rw [hw]
  · show costAt inp (i + (j + 1) + 1) = costAt inp (i + 1 + j + 1)
    rw [hw]
  · show earnAt sinR cosR inp (i + (j + 1) + 1) - costAt inp (i + (j + 1) + 1) =
      earnAt sinR cosR inp (i + 1 + j + 1) - costAt inp (i + 1 + j + 1)
    rw [hw]
  · show (cE + ∑ k in Finset.range (j + 1 + 1),
        earnAt sinR cosR inp (i + k + 1)) -
      (cC + ∑ k in Finset.range (j + 1 + 1), costAt inp (i + k + 1)) =
      ((cE + earnAt sinR cosR inp (i + 1)) +
        ∑ k in Finset.range (j + 1), earnAt sinR cosR inp (i + 1 + k + 1)) -
      ((cC + costAt inp (i + 1)) +
        ∑ k in Finset.range (j + 1), costAt inp (i + 1 + k + 1))
    rw [hsumE, hsumC]
    ring

theorem buildRows_eq (sinR cosR : K → K) (inp : ScenarioInput K) :
    ∀ (n i : ℕ) (cE cC : K),
      buildRows sinR cosR inp n i cE cC =
        (List.range n).map (rowAt sinR cosR inp cE cC i) := by
  intro n
  induction n with
  | zero => intro i cE cC; rfl
  | succ n ih =>
    intro i cE cC
    rw [show buildRows sinR cosR inp (n + 1) i cE cC =
        (weekRow sinR cosR inp i cE cC).1 ::
          buildRows sinR cosR inp n (i + 1)
            (weekRow sinR cosR inp i cE cC).2.1
            (weekRow sinR cosR inp i cE cC).2.2 from rfl]
    rw [weekRow_eq, ih, List.range_succ_eq_map, List.map_cons, List.map_map]
    congr 1
    · ext
      · show i + 1 = i + 0 + 1
        omega
      · show earnAt sinR cosR inp (i + 1) = earnAt sinR cosR inp (i + 0 + 1)
        norm_num
      · show costAt inp (i + 1) = costAt inp (i + 0 + 1)
        norm_num
      · show earnAt sinR cosR inp (i + 1) - costAt inp (i + 1) =
          earnAt sinR cosR inp (i + 0 + 1) - costAt inp (i + 0 + 1)
        norm_num
      · show (cE + earnAt sinR cosR inp (i + 1)) - (cC + costAt inp (i + 1)) =
          (cE + ∑ k in Finset.range (0 + 1), earnAt sinR cosR inp (i + k + 1)) -
            (cC + ∑ k in Finset.range (0 + 1), costAt inp (i + k + 1))
        norm_num
    · refine (List.map_congr_left fun j _ => ?_).symm
      show rowAt sinR cosR inp cE cC i (j + 1) =
        rowAt sinR cosR inp (cE + earnAt sinR cosR inp (i + 1))
          (cC + costAt inp (i + 1)) (i + 1) j
      exact rowAt_succ sinR cosR inp cE cC i j

theorem data_eq (sinR cosR : K → K) (inp : ScenarioInput K) :
    data sinR cosR inp =
      (List.range 12).map (rowAt sinR cosR inp 0 0 0) :=
  buildRows_eq sinR cosR inp 12 0 0 0

theorem data_get (sinR cosR : K → K) (inp : ScenarioInput K) (w : ℕ)
    (h1 : 1 ≤ w) (h2 : w ≤ 12) :
    (data sinR cosR inp)[w - 1]? = some
      { week := w
        weeklyEarningsUSD := earnAt sinR cosR inp w
        weeklyInfraCostUSD := costAt inp w
        netUSD := earnAt sinR cosR inp w - costAt inp w
        cumulativeNetUSD :=
          (∑ k in Finset.range w, earnAt sinR cosR inp (k + 1)) -
            ∑ k in Finset.range w, costAt inp (k + 1) } := by
  have hlt : w - 1 < 12 := by omega
  have hw : 0 + (w - 1) + 1 = w := by omega
  rw [data_eq, List.getElem?_map, List.getElem?_range hlt]
  simp only [Option.map_some']
  congr 1
  ext
  · show 0 + (w - 1) + 1 = w
    omega
  · show earnAt sinR cosR inp (0 + (w - 1) + 1) = earnAt sinR cosR inp w
    rw [hw]
  · show costAt inp (0 + (w - 1) + 1) = costAt inp w
    rw [hw]
  · show earnAt sinR cosR inp (0 + (w - 1) + 1) - costAt inp (0 + (w - 1) + 1) =
      earnAt sinR cosR inp w - costAt inp w
    rw [hw]
  · show (0 + ∑ k in Finset.range (w - 1 + 1),
        earnAt sinR cosR inp (0 + k + 1)) -
      (0 + ∑ k in Finset.range (w - 1 + 1), costAt inp (0 + k + 1)) =
      (∑ k in Finset.range w, earnAt sinR cosR inp (k + 1)) -
        ∑ k in Finset.range w, costAt inp (k + 1)
    rw [show w - 1 + 1 = w from by omega]
    simp [Nat.zero_add]

theorem sum_map_list_range {M : Type} [AddCommMonoid M] (g : ℕ → M) :
    ∀ n : ℕ, ((List.range n).map g).sum = ∑ k in Finset.range n, g k := by
  intro n
  induction n with
  | zero => simp
  | succ n ih =>
    rw [List.range_succ, List.map_append, List.sum_append,
      Finset.sum_range_succ, ih]
    simp

theorem costBase_pos (inp : ScenarioInput ℝ) :
    0 < (COMPUTE_COSTS inp.provider : ComputeCost ℝ).base * (1 / 4.345) +
      (BLOB_COSTS inp.blob : BlobCost ℝ).storage_per_gb * storageGB +
      (BLOB_COSTS inp.blob : BlobCost ℝ).egress_per_gb * egressGB := by
  rcases inp with ⟨p, b, _, _, _⟩
  cases p <;> cases b <;>
    simp only [COMPUTE_COSTS_aws_base, COMPUTE_COSTS_gcp_base,
      BLOB_COSTS_s3_storage, BLOB_COSTS_s3_egress, BLOB_COSTS_gcs_storage,
      BLOB_COSTS_gcs_egress, storageGB_eq, egressGB_eq] <;> norm_num

theorem costAt_lt_costAt (inp : ScenarioInput ℝ) {v w : ℕ} (hvw : v < w) :
    costAt inp v < costAt inp w := by
  have hS := costBase_pos inp
  have hv : (v : ℝ) < (w : ℝ) := by exact_mod_cast hvw
  have hg : (1 : ℝ) + (v : ℝ) * 0.015 < 1 + (w : ℝ) * 0.015 := by nlinarith
  exact mul_lt_mul_of_pos_left hg hS

theorem week1_cost_eq :
    ((data Real.sin Real.cos (defaultInput : ScenarioInput ℝ))[0]?).map
      WeekProjection.weeklyInfraCostUSD =
    some (costAt (defaultInput : ScenarioInput ℝ) 1) := by
  show ((data Real.sin Real.cos (defaultInput : ScenarioInput ℝ))[1 - 1]?).map
    WeekProjection.weeklyInfraCostUSD =
      some (costAt (defaultInput : ScenarioInput ℝ) 1)
  rw [data_get Real.sin Real.cos (defaultInput : ScenarioInput ℝ) 1
    (by norm_num) (by norm_num)]
  rfl

/-- Claim C1: for every input and every week `w` from 1 to 12, the weekly
earnings of the `w`-th element of the simulated sequence equal
`userStakeAmount * ((0.07 / 52) * (1 + 0.05 * cos (w / 2))) *
(tokenPrice * (1 + 0.1 * sin (w / 3)))`, with the trigonometric arguments in
radians (`Real.sin` / `Real.cos`). -/
theorem C1_weeklyEarnings_formula (inp : ScenarioInput ℝ) (w : ℕ)
    (h1 : 1 ≤ w) (h2 : w ≤ 12) :
    ((data Real.sin Real.cos inp)[w - 1]?).map
        WeekProjection.weeklyEarningsUSD =
      some (inp.userStake *
        ((0.07 / 52) * (1 + 0.05 * Real.cos ((w : ℝ) / 2))) *
        (inp.audioPrice * (1 + 0.1 * Real.sin ((w : ℝ) / 3)))) := by
  rw [data_get Real.sin Real.cos inp w h1 h2]
  rfl

/-- Witness for claim C1 at the default scenario and week 1. -/
theorem C1_witness :
    ((data Real.sin Real.cos (defaultInput : ScenarioInput ℝ))[1 - 1]?).map
        WeekProjection.weeklyEarningsUSD =
      some ((defaultInput : ScenarioInput ℝ).userStake *
        ((0.07 / 52) * (1 + 0.05 * Real.cos (((1 : ℕ) : ℝ) / 2))) *
        ((defaultInput : ScenarioInput ℝ).audioPrice *
          (1 + 0.1 * Real.sin (((1 : ℕ) : ℝ) / 3)))) :=
  C1_weeklyEarnings_formula defaultInput 1 (by norm_num) (by norm_num)

/-- Claim C2: for every input and every week `w` from 1 to 12, the weekly
infrastructure cost of the `w`-th element equals
`(computeBaseMonthlyCost / 4.345 + storagePerGbMonthly * 200 +
egressPerGbMonthly * 400) * (1 + w * 0.015)`. -/
theorem C2_weeklyInfraCost_formula (inp : ScenarioInput ℝ) (w : ℕ)
    (h1 : 1 ≤ w) (h2 : w ≤ 12) :
    ((data Real.sin Real.cos inp)[w - 1]?).map
        WeekProjection.weeklyInfraCostUSD =
      some (((COMPUTE_COSTS inp.provider : ComputeCost ℝ).base / 4.345 +
          (BLOB_COSTS inp.blob : BlobCost ℝ).storage_per_gb * 200 +
          (BLOB_COSTS inp.blob : BlobCost ℝ).egress_per_gb * 400) *
        (1 + (w : ℝ) * 0.015)) := by
  rw [data_get Real.sin Real.cos inp w h1 h2]
  simp only [Option.map_some']
  congr 1
  simp only [costAt, storageGB_eq, egressGB_eq]
  ring

/-- Witness for claim C2 at the default scenario and week 1. -/
theorem C2_witness :
    ((data Real.sin Real.cos (defaultInput : ScenarioInput ℝ))[1 - 1]?).map
        WeekProjection.weeklyInfraCostUSD =
      some (((COMPUTE_COSTS (defaultInput : ScenarioInput ℝ).provider :
            ComputeCost ℝ).base / 4.345 +
          (BLOB_COSTS (defaultInput : ScenarioInput ℝ).blob :
            BlobCost ℝ).storage_per_gb * 200 +
          (BLOB_COSTS (defaultInput : ScenarioInput ℝ).blob :
            BlobCost ℝ).egress_per_gb * 400) *
        (1 + ((1 : ℕ) : ℝ) * 0.015)) :=
  C2_weeklyInfraCost_formula defaultInput 1 (by norm_num) (by norm_num)

/-- Claim C3: for every input, the simulation returns exactly `weeks = 12`
elements whose `week` fields are `1, 2, ..., 12` in ascending order. -/
theorem C3_weeks_in_order (inp : ScenarioInput ℝ) :
    (data Real.sin Real.cos inp).length = weeks ∧
      (data Real.sin Real.cos inp).map WeekProjection.week =
        List.range' 1 weeks := by
  rw [data_eq]
  constructor
  · simp [weeks]
  · rw [List.map_map]
    rw [show WeekProjection.week ∘ rowAt Real.sin Real.cos inp 0 0 0 =
      fun j => 0 + j + 1 from rfl]
    decide

/-- Claim C4: for every input and every week `w` from 1 to 12, the
`cumulativeNetUSD` field of the `w`-th element equals the sum of
`weeklyEarningsUSD` over weeks `1..w` minus the sum of `weeklyInfraCostUSD`
over weeks `1..w`. -/
theorem C4_cumulativeNet (inp : ScenarioInput ℝ) (w : ℕ)
    (h1 : 1 ≤ w) (h2 : w ≤ 12) :
    ((data Real.sin Real.cos inp)[w - 1]?).map
        WeekProjection.cumulativeNetUSD =
      some ((((data Real.sin Real.cos inp).take w).map
          WeekProjection.weeklyEarningsUSD).sum -
        (((data Real.sin Real.cos inp).take w).map
          WeekProjection.weeklyInfraCostUSD).sum) := by
  rw [data_get Real.sin Real.cos inp w h1 h2]
  simp only [Option.map_some']
  congr 1
  have ht : (data Real.sin Real.cos inp).take w =
      (List.range w).map (rowAt Real.sin Real.cos inp 0 0 0) := by
    rw [data_eq, ← List.map_take, List.take_range, min_eq_left h2]
  rw [ht, List.map_map, List.map_map, sum_map_list_range, sum_map_list_range]
  congr 1
  · refine Finset.sum_congr rfl fun k _ => ?_
    show earnAt Real.sin Real.cos inp (k + 1) =
      earnAt Real.sin Real.cos inp (0 + k + 1)
    norm_num
  · refine Finset.sum_congr rfl fun k _ => ?_
    show costAt inp (k + 1) = costAt inp (0 + k + 1)
    norm_num

/-- Witness for claim C4 at the default scenario and week 1. -/
theorem C4_witness :
    ((data Real.sin Real.cos (defaultInput : ScenarioInput ℝ))[1 - 1]?).map
        WeekProjection.cumulativeNetUSD =
      some ((((data Real.sin Real.cos
            (defaultInput : ScenarioInput ℝ)).take 1).map
          WeekProjection.weeklyEarningsUSD).sum -
        (((data Real.sin Real.cos
            (defaultInput : ScenarioInput ℝ)).take 1).map
          WeekProjection.weeklyInfraCostUSD).sum) :=
  C4_cumulativeNet defaultInput 1 (by norm_num) (by norm_num)

/-- Claim C5 (counterexample): under the scenario of the claim (AWS EC2, S3,
price 0.27, user stake 2 000 000) the week-1 infrastructure cost is more than
0.5 away from the claimed value 60.58 (it is in fact about 59.897). -/
theorem C5_counterexample :
    ¬ |(((data Real.sin Real.cos (defaultInput : ScenarioInput ℝ))[0]?).map
        WeekProjection.weeklyInfraCostUSD).getD (0 : ℝ) - 60.58| ≤ 0.5 := by
  rw [week1_cost_eq, Option.getD_some]
  rw [show costAt (defaultInput : ScenarioInput ℝ) 1 =
      (80 * (1 / 4.345) + 0.023 * 200 + 0.09 * 400) *
        (1 + ((1 : ℕ) : ℝ) * 0.015) from rfl]
  rw [abs_le]
  rintro ⟨hlow, -⟩
  norm_num at hlow

/-- Claim C5 (amended): the week-1 infrastructure cost under that scenario
equals `(80 / 4.345 + 0.023 * 200 + 0.09 * 400) * 1.015`, which is within
0.005 of 59.90. -/
theorem C5_amended :
    ((data Real.sin Real.cos (defaultInput : ScenarioInput ℝ))[0]?).map
        WeekProjection.weeklyInfraCostUSD =
      some (((80 : ℝ) / 4.345 + 0.023 * 200 + 0.09 * 400) * 1.015) ∧
      |((80 : ℝ) / 4.345 + 0.023 * 200 + 0.09 * 400) * 1.015 - 59.90| <
        0.005 := by
  constructor
  · rw [week1_cost_eq]
    congr 1
    rw [show costAt (defaultInput : ScenarioInput ℝ) 1 =
        (80 * (1 / 4.345) + 0.023 * 200 + 0.09 * 400) *
          (1 + ((1 : ℕ) : ℝ) * 0.015) from rfl]
    norm_num
  · rw [abs_lt]
    constructor <;> norm_num

/-- Claim C6: for every input and every week `w` from 1 to 12, the `netUSD`
field of the `w`-th element equals that element's `weeklyEarningsUSD` minus
its `weeklyInfraCostUSD`. -/
theorem C6_net_formula (inp : ScenarioInput ℝ) (w : ℕ)
    (h1 : 1 ≤ w) (h2 : w ≤ 12) :
    ((data Real.sin Real.cos inp)[w - 1]?).map WeekProjection.netUSD =
      ((data Real.sin Real.cos inp)[w - 1]?).map
        (fun p => p.weeklyEarningsUSD - p.weeklyInfraCostUSD) := by
  rw [data_get Real.sin Real.cos inp w h1 h2]
  rfl

/-- Witness for claim C6 at the default scenario and week 1. -/
theorem C6_witness :
    ((data Real.sin Real.cos (defaultInput : ScenarioInput ℝ))[1 - 1]?).map
        WeekProjection.netUSD =
      ((data Real.sin Real.cos (defaultInput : ScenarioInput ℝ))[1 - 1]?).map
        (fun p => p.weeklyEarningsUSD - p.weeklyInfraCostUSD) :=
  C6_net_formula defaultInput 1 (by norm_num) (by norm_num)

/-- Claim C7: holding the provider and blob-provider choice fixed, the weekly
infrastructure cost is strictly increasing in the week index: for all weeks
`v < w` in `1..12`, the cost of week `v` is below the cost of week `w`. -/
theorem C7_cost_strict_mono (inp : ScenarioInput ℝ) (v w : ℕ)
    (h1 : 1 ≤ v) (hvw : v < w) (h2 : w ≤ 12) :
    (((data Real.sin Real.cos inp)[v - 1]?).map
        WeekProjection.weeklyInfraCostUSD).getD 0 <
      (((data Real.sin Real.cos inp)[w - 1]?).map
        WeekProjection.weeklyInfraCostUSD).getD 0 := by
  rw [data_get Real.sin Real.cos inp v h1 (by omega),
    data_get Real.sin Real.cos inp w (by omega) h2]
  simp only [Option.map_some', Option.getD_some]
  exact costAt_lt_costAt inp hvw

/-- Witness for claim C7 at the default scenario, weeks 1 and 2. -/
theorem C7_witness :
    (((data Real.sin Real.cos (defaultInput : ScenarioInput ℝ))[1 - 1]?).map
        WeekProjection.weeklyInfraCostUSD).getD 0 <
      (((data Real.sin Real.cos (defaultInput : ScenarioInput ℝ))[2 - 1]?).map
        WeekProjection.weeklyInfraCostUSD).getD 0 :=
  C7_cost_strict_mono defaultInput 1 2 (by norm_num) (by norm_num)
    (by norm_num)

/-- Claim C8: for every input with a zero user stake, every element of the
simulated sequence has zero weekly earnings and a weekly net equal to the
negation of its weekly infrastructure cost. -/
theorem C8_zero_stake (inp : ScenarioInput ℝ) (h0 : inp.userStake = 0)
    (w : ℕ) (h1 : 1 ≤ w) (h2 : w ≤ 12) :
    ((data Real.sin Real.cos inp)[w - 1]?).map
        WeekProjection.weeklyEarningsUSD = some 0 ∧
      ((data Real.sin Real.cos inp)[w - 1]?).map WeekProjection.netUSD =
        ((data Real.sin Real.cos inp)[w - 1]?).map
          (fun p => -p.weeklyInfraCostUSD) := by
  rw [data_get Real.sin Real.cos inp w h1 h2]
  have he : earnAt Real.sin Real.cos inp w = 0 := by
    simp [earnAt, h0]
  constructor
  · simp only [Option.map_some']
    rw [he]
  · simp only [Option.map_some']
    congr 1
    show earnAt Real.sin Real.cos inp w - costAt inp w = -costAt inp w
    rw [he]
    ring

/-- Witness for claim C8 at the zero-stake scenario and week 1. -/
theorem C8_witness :
    ((data Real.sin Real.cos (zeroStakeInput : ScenarioInput ℝ))[1 - 1]?).map
        WeekProjection.weeklyEarningsUSD = some (0 : ℝ) ∧
      ((data Real.sin Real.cos
          (zeroStakeInput : ScenarioInput ℝ))[1 - 1]?).map
          WeekProjection.netUSD =
        ((data Real.sin Real.cos
            (zeroStakeInput : ScenarioInput ℝ))[1 - 1]?).map
          (fun p : WeekProjection ℝ => -p.weeklyInfraCostUSD) :=
  C8_zero_stake zeroStakeInput rfl 1 (by norm_num) (by norm_num)

/-- Claim C9: the simulation is deterministic: two invocations on inputs with
identical field values produce identical output sequences.  There is no other
state the (pure) simulation could read or write. -/
theorem C9_deterministic (i1 i2 : ScenarioInput ℝ)
    (hp : i1.provider = i2.provider) (hb : i1.blob = i2.blob)
    (ha : i1.audioPrice = i2.audioPrice) (ht : i1.totalStake = i2.totalStake)
    (hu : i1.userStake = i2.userStake) :
    data Real.sin Real.cos i1 = data Real.sin Real.cos i2 := by
  rcases i1 with ⟨p1, b1, a1, t1, u1⟩
  rcases i2 with ⟨p2, b2, a2, t2, u2⟩
  subst hp hb ha ht hu
  rfl

/-- Witness for claim C9 at the default scenario. -/
theorem C9_witness :
    data Real.sin Real.cos (defaultInput : ScenarioInput ℝ) =
      data Real.sin Real.cos (defaultInput : ScenarioInput ℝ) :=
  C9_deterministic defaultInput defaultInput rfl rfl rfl rfl rfl

/-- Claim C10: the simulated sequence does not depend on the `totalStake`
value: for any two values of `totalStake` and all other inputs equal, the
computed projection sequence is identical, even though `totalStake` is listed
as a dependency of the memo. -/
theorem C10_totalStake_irrelevant (p : Provider) (b : BlobProvider)
    (price us t1 t2 : ℝ) :
    data Real.sin Real.cos ⟨p, b, price, t1, us⟩ =
      data Real.sin Real.cos ⟨p, b, price, t2, us⟩ := rfl
